import Mathlib

/-!
Shallow embedding of `src/hieroglyph/potentials.py`: five global optical-model
potential parameterizations (An-Cai, Daehnick, Bojowald, Koning-Delaroche
proton, Li-Liang-Cai triton) and the `create_parameters` dispatch wrapper.

Python `float` arithmetic is modelled by real arithmetic; Python `int` by `ℤ`.
A Python `dict[str, float]` is modelled as an association list in insertion
order (`ParameterSet`): assignment to an existing key updates it in place,
assignment to a fresh key appends, exactly as Python dicts behave.
`create_parameters` can raise, so it returns `Except String ParameterSet`,
the error carrying the exception message.
-/

namespace Hieroglyph

/-- Keyword for the An-Cai potential (`AN_CAI` in the source). -/
def AN_CAI : String := "an-cai"

/-- Keyword for the Daehnick potential (`DAEHNICK` in the source). -/
def DAEHNICK : String := "daehnick"

/-- Keyword for the Bojowald potential (`BOJOWALD` in the source). -/
def BOJOWALD : String := "bojowald"

/-- Keyword for the Koning-Delaroche proton potential. -/
def KONING_DELAROCHE_PROTON : String := "koning-delaroche-proton"

/-- Keyword for the Li-Liang-Cai triton potential. -/
def LI_LIANG_CAI_TRITON : String := "li-liang-cai-triton"

/-- A `dict[str, float]` in insertion order. -/
abbrev ParameterSet := List (String × ℝ)

/-- Python dict assignment `params[k] = v`: update the key in place if present,
otherwise append at the end. -/
def setp (k : String) (v : ℝ) : ParameterSet → ParameterSet
  | [] => [(k, v)]
  | (k0, v0) :: rest => if k0 = k then (k, v) :: rest else (k0, v0) :: setp k v rest

/-- Python dict read `params[k]`, as an `Option` (`none` models `KeyError`). -/
def getp (k : String) : ParameterSet → Option ℝ
  | [] => none
  | (k0, v0) :: rest => if k0 = k then some v0 else getp k rest

/-- The value of `params[k]`. Every read in the source happens after the same
call wrote the key, so the `0` default of the missing-key case is never hit. -/
def getv (k : String) (p : ParameterSet) : ℝ := (getp k p).getD 0

/-- The key list of a parameter set, in insertion order (`dict.keys()`). -/
def keysOf (p : ParameterSet) : List String := p.map Prod.fst

/-- The sixteen parameter keys, in the order `create_parameters` initializes
them. -/
def paramKeys : List String :=
  ["V", "Vi", "Vsi", "Vso", "Vsoi", "r0", "ri0", "rsi0", "rso0", "rsoi0",
   "rc0", "a", "ai", "asi", "aso", "asoi"]

/-- An-Cai deuteron potential (`an_cai_potential` in the source). -/
noncomputable def an_cai_potential (E : ℝ) (zt at_ : ℤ) (params : ParameterSet) :
    ParameterSet :=
  let a3 : ℝ := (at_ : ℝ) ^ (0.333 : ℝ)
  let params := setp "V" (91.85 - 0.249 * E + 1.116e-4 * E ^ 2 + 0.642 * (zt : ℝ) / a3) params
  let params := setp "Vi" (1.104 + 0.0622 * E) params
  let params := setp "Vsi" (10.83 - 0.0306 * E) params
  let params := setp "Vso" 3.557 params
  let params := setp "Vsoi" 0.0 params
  let params := setp "r0" (1.152 - 0.00776 / a3) params
  let params := setp "ri0" (1.305 + 0.0997 / a3) params
  let params := setp "rsi0" (1.334 + 0.152 / a3) params
  let params := setp "rso0" 0.972 params
  let params := setp "rsoi0" 0.0 params
  let params := setp "rc0" 1.303 params
  let params := setp "a" (0.719 + 0.0126 * a3) params
  let params := setp "ai" (0.855 - 0.1 * a3) params
  let params := setp "asi" (0.531 + 0.062 * a3) params
  let params := setp "aso" 1.011 params
  let params := setp "asoi" 0.0 params
  params

/-- The zero-filled sixteen-key dict `create_parameters` allocates. -/
def initParams : ParameterSet :=
  [("V", 0.0), ("Vi", 0.0), ("Vsi", 0.0), ("Vso", 0.0), ("Vsoi", 0.0),
   ("r0", 0.0), ("ri0", 0.0), ("rsi0", 0.0), ("rso0", 0.0), ("rsoi0", 0.0),
   ("rc0", 0.0), ("a", 0.0), ("ai", 0.0), ("asi", 0.0), ("aso", 0.0),
   ("asoi", 0.0)]

/-- Daehnick deuteron potential (`daehnick_potential` in the source). -/
noncomputable def daehnick_potential (E : ℝ) (zt at_ : ℤ) (params : ParameterSet) :
    ParameterSet :=
  let nt : ℤ := at_ - zt
  let a3 : ℝ := (at_ : ℝ) ^ (0.333 : ℝ)
  let beta : ℝ := -1.0 * (E * 0.01) ^ 2
  let mu1 : ℝ := Real.exp (-1.0 * ((8.0 - (nt : ℝ)) * 0.5) ^ 2)
  let mu2 : ℝ := Real.exp (-1.0 * ((20.0 - (nt : ℝ)) * 0.5) ^ 2)
  let mu3 : ℝ := Real.exp (-1.0 * ((28.0 - (nt : ℝ)) * 0.5) ^ 2)
  let mu4 : ℝ := Real.exp (-1.0 * ((50.0 - (nt : ℝ)) * 0.5) ^ 2)
  let mu5 : ℝ := Real.exp (-1.0 * ((82.0 - (nt : ℝ)) * 0.5) ^ 2)
  let mu6 : ℝ := Real.exp (-1.0 * ((126.0 - (nt : ℝ)) * 0.5) ^ 2)
  let mu : ℝ := mu1 + mu2 + mu3 + mu4 + mu5 + mu6
  let params := setp "V" (88.0 - 0.283 * E + 0.88 * (zt : ℝ) / a3) params
  let params := setp "Vi" ((12.0 + 0.031 * E) * (1.0 - Real.exp beta)) params
  let params := setp "Vsi" ((12.0 + 0.031 * E) * Real.exp beta) params
  let params := setp "Vso" (7.2 - 0.032 * E) params
  let params := setp "Vsoi" 0.0 params
  let params := setp "r0" 1.17 params
  let params := setp "ri0" (1.376 - 0.01 * Real.sqrt E) params
  let params := setp "rsi0" (1.376 - 0.01 * Real.sqrt E) params
  let params := setp "rso0" 1.07 params
  let params := setp "rsoi0" 0.0 params
  let params := setp "rc0" 1.3 params
  let params := setp "a" (0.717 + 0.0012 * E) params
  let params := setp "ai" (0.52 + 0.07 * a3 - 0.04 * mu) params
  let params := setp "asi" (0.52 + 0.07 * a3 - 0.04 * mu) params
  let params := setp "aso" 0.66 params
  let params := setp "asoi" 0.0 params
  params

/-- Bojowald deuteron potential (`bojowald_potential` in the source). -/
noncomputable def bojowald_potential (E : ℝ) (zt at_ : ℤ) (params : ParameterSet) :
    ParameterSet :=
  let a3 : ℝ := (at_ : ℝ) ^ (0.333 : ℝ)
  let params := setp "V" (81.33 - 0.24 * E + 1.43 * (zt : ℝ) / a3) params
  let params := setp "Vi" (if 45 < E then 0.132 * (E - 45) else 0) params
  let params := setp "Vsi" (7.8 + 1.04 * a3 - 0.712 * getv "Vi" params) params
  let params := setp "Vso" 6.0 params
  let params := setp "Vsoi" 0.0 params
  let params := setp "r0" 1.18 params
  let params := setp "ri0" 1.27 params
  let params := setp "rsi0" 1.27 params
  let params := setp "rso0" (0.78 + 0.038 * a3) params
  let params := setp "rsoi0" 0.0 params
  let params := setp "rc0" 1.3 params
  let params := setp "a" (0.636 + 0.035 * a3) params
  let params := setp "ai" (0.768 + 0.021 * a3) params
  let params := setp "asi" (0.768 + 0.021 * a3) params
  let params := setp "aso" (0.78 + 0.038 * a3) params
  let params := setp "asoi" 0.0 params
  params

/-- Koning-Delaroche proton potential (`koning_delaroche_proton_potential` in
the source). -/
noncomputable def koning_delaroche_proton_potential (E : ℝ) (zt at_ : ℤ)
    (params : ParameterSet) : ParameterSet :=
  let nt : ℤ := at_ - zt
  let a3 : ℝ := (at_ : ℝ) ^ (0.333 : ℝ)
  let v1 : ℝ := 59.30 + 21.0 * ((nt : ℝ) - (zt : ℝ)) / (at_ : ℝ) - 0.024 * (at_ : ℝ)
  let v2 : ℝ := 0.007067 + 4.23e-6 * (at_ : ℝ)
  let v3 : ℝ := 1.729e-5 + 1.136e-8 * (at_ : ℝ)
  let v4 : ℝ := 7.0e-9
  let w1 : ℝ := 14.667 + 0.009629 * (at_ : ℝ)
  let w2 : ℝ := 73.55 + 0.0795 * (at_ : ℝ)
  let d1 : ℝ := 16.0 + 16.0 * ((nt : ℝ) - (zt : ℝ)) / (at_ : ℝ)
  let d2 : ℝ := 0.0180 + 0.003802 / (1.0 + Real.exp (((at_ : ℝ) - 156.0) / 8.0))
  let d3 : ℝ := 11.5
  let vso1 : ℝ := 5.922 + 0.0030 * (at_ : ℝ)
  let vso2 : ℝ := 0.0040
  let wso1 : ℝ := -3.1
  let wso2 : ℝ := 160
  let ef : ℝ := -8.4075 + 0.01378 * (at_ : ℝ)
  let rc : ℝ := 1.198 + 0.697 * (at_ : ℝ) ^ (-0.666 : ℝ)
    + 12.994 * (at_ : ℝ) ^ (-1.666 : ℝ)
  let vc : ℝ := 1.73 / rc * (zt : ℝ) * a3
  let de : ℝ := E - ef
  let params := setp "V" (v1 * (1.0 - v2 * de + v3 * de ^ 2 - v4 * de ^ 3)
    + vc * v1 * (v2 - 2.0 * v3 * de + 3.0 * v4 * de ^ 2)) params
  let params := setp "Vi" (w1 * de ^ 2 / (de ^ 2 + w2 ^ 2)) params
  let params := setp "Vsi" (d1 * de ^ 2 / (de ^ 2 + d3 ^ 2)
    * Real.exp (-1.0 * d2 * de)) params
  let params := setp "Vso" (vso1 * Real.exp (-1.0 * vso2 * de)) params
  let params := setp "Vsoi" (wso1 * de ^ 2 / (de ^ 2 + wso2 ^ 2)) params
  let params := setp "r0" (1.3039 - 0.4054 / a3) params
  let params := setp "ri0" (getv "r0" params) params
  let params := setp "rsi0" (1.3424 - 0.01585 * a3) params
  let params := setp "rso0" (1.1854 - 0.647 / a3) params
  let params := setp "rsoi0" (getv "rso0" params) params
  let params := setp "rc0" rc params
  let params := setp "a" (0.6778 - 1.487e-4 * (at_ : ℝ)) params
  let params := setp "ai" (0.6778 - 1.487e-4 * (at_ : ℝ)) params
  let params := setp "asi" (0.5187 + 5.205e-4 * (at_ : ℝ)) params
  let params := setp "aso" 0.59 params
  let params := setp "asoi" 0.59 params
  params

/-- Li-Liang-Cai triton potential (`li_liang_cai_triton_potential` in the
source); note the source writes the keys in a different order but ends with the
same sixteen keys. -/
noncomputable def li_liang_cai_triton_potential (E : ℝ) (zt at_ : ℤ)
    (params : ParameterSet) : ParameterSet :=
  let nt : ℤ := at_ - zt
  let a3 : ℝ := (at_ : ℝ) ^ ((1.0 : ℝ) / 3.0)
  let params := setp "V" (137.6 - 0.1456 * E + 0.0436 * E ^ 2
    + 4.3751 * ((nt : ℝ) - (zt : ℝ)) / (at_ : ℝ) + 1.0474 * (zt : ℝ) / a3) params
  let params := setp "r0" (1.1201 - 0.1504 / a3) params
  let params := setp "a" (0.6833 + 0.0191 * a3) params
  let params := setp "Vi" (7.383 + 0.5025 * E - 0.0097 * E ^ 2) params
  let params := setp "ri0" (1.3202 - 0.1776 / a3) params
  let params := setp "ai" (1.119 + 0.01913 * a3) params
  let params := setp "Vsi" (37.06 - 0.6451 * E - 47.19 * ((nt : ℝ) - (zt : ℝ)) / (at_ : ℝ)) params
  let params := setp "rsi0" (1.251 - 0.4622 / a3) params
  let params := setp "asi" (0.8114 + 0.01159 * a3) params
  let params := setp "Vso" 1.9029 params
  let params := setp "rso0" (0.46991 + 0.1294 / a3) params
  let params := setp "aso" (0.3545 - 0.0522 * a3) params
  let params := setp "Vsoi" 0.0 params
  let params := setp "rsoi0" 0.0 params
  let params := setp "asoi" 0.0 params
  let params := setp "rc0" 1.422 params
  params

/-- The type of a potential formula function. -/
abbrev PotentialFn := ℝ → ℤ → ℤ → ParameterSet → ParameterSet

/-- The registry connecting each keyword to its formula (`POTENTIALS` in the
source), in source order. -/
noncomputable def POTENTIALS : List (String × PotentialFn) :=
  [(AN_CAI, an_cai_potential),
   (DAEHNICK, daehnick_potential),
   (BOJOWALD, bojowald_potential),
   (KONING_DELAROCHE_PROTON, koning_delaroche_proton_potential),
   (LI_LIANG_CAI_TRITON, li_liang_cai_triton_potential)]

/-- The registry's key list (`POTENTIALS.keys()`), in source order. -/
def POTENTIAL_KEYWORDS : List String :=
  [AN_CAI, DAEHNICK, BOJOWALD, KONING_DELAROCHE_PROTON, LI_LIANG_CAI_TRITON]

/-- Registry lookup: `POTENTIALS[potential]` guarded by
`potential in POTENTIALS.keys()`. -/
noncomputable def findFn (k : String) : List (String × PotentialFn) → Option PotentialFn
  | [] => none
  | (k0, f) :: rest => if k0 = k then some f else findFn k rest

/-- Rendering of `POTENTIALS.keys()` inside the exception message, as Python
prints a `dict_keys` view. -/
def keywordsRepr : String :=
  "dict_keys(['an-cai', 'daehnick', 'bojowald', 'koning-delaroche-proton', 'li-liang-cai-triton'])"

/-- The exception message of `create_parameters` for an unknown potential
keyword. -/
def unknownPotentialMessage (potential : String) : String :=
  "Potential " ++ potential ++ " is not in the set of allowed Potentials "
    ++ keywordsRepr ++ "!"

/-- The dispatch wrapper (`create_parameters` in the source): validate the
keyword, allocate the zero-filled sixteen-key dict, run the selected formula on
it and return it; an unknown keyword raises, modelled by `Except.error`. -/
noncomputable def create_parameters (E : ℝ) (zt at_ : ℤ) (potential : String) :
    Except String ParameterSet :=
  match findFn potential POTENTIALS with
  | none => Except.error (unknownPotentialMessage potential)
  | some f => Except.ok (f E zt at_ initParams)

/-- A parameter set holding the sixteen keys in initialization order, with
arbitrary values. -/
def mkParams (x1 x2 x3 x4 x5 x6 x7 x8 x9 x10 x11 x12 x13 x14 x15 x16 : ℝ) :
    ParameterSet :=
  [("V", x1), ("Vi", x2), ("Vsi", x3), ("Vso", x4), ("Vsoi", x5),
   ("r0", x6), ("ri0", x7), ("rsi0", x8), ("rso0", x9), ("rsoi0", x10),
   ("rc0", x11), ("a", x12), ("ai", x13), ("asi", x14), ("aso", x15),
   ("asoi", x16)]

/-- The zero-filled dict is `mkParams` at sixteen zeros. -/
lemma initParams_eq : initParams = mkParams 0 0 0 0 0 0 0 0 0 0 0 0 0 0 0 0 := by
  norm_num [initParams, mkParams]

set_option maxHeartbeats 2000000 in
/-- Running `an_cai_potential` on any sixteen-key dict overwrites every entry;
no initial value survives. -/
lemma an_cai_run (E : ℝ) (zt at_ : ℤ)
    (x1 x2 x3 x4 x5 x6 x7 x8 x9 x10 x11 x12 x13 x14 x15 x16 : ℝ) :
    an_cai_potential E zt at_
        (mkParams x1 x2 x3 x4 x5 x6 x7 x8 x9 x10 x11 x12 x13 x14 x15 x16) =
      mkParams
        (91.85 - 0.249 * E + 1.116e-4 * E ^ 2
          + 0.642 * (zt : ℝ) / (at_ : ℝ) ^ (0.333 : ℝ))
        (1.104 + 0.0622 * E)
        (10.83 - 0.0306 * E)
        3.557
        0.0
        (1.152 - 0.00776 / (at_ : ℝ) ^ (0.333 : ℝ))
        (1.305 + 0.0997 / (at_ : ℝ) ^ (0.333 : ℝ))
        (1.334 + 0.152 / (at_ : ℝ) ^ (0.333 : ℝ))
        0.972
        0.0
        1.303
        (0.719 + 0.0126 * (at_ : ℝ) ^ (0.333 : ℝ))
        (0.855 - 0.1 * (at_ : ℝ) ^ (0.333 : ℝ))
        (0.531 + 0.062 * (at_ : ℝ) ^ (0.333 : ℝ))
        1.011
        0.0 := rfl

/-- The magic-number smoothing term of the Daehnick potential: six Gaussians
centered at the closed neutron shells, evaluated at `nt = at - zt`. -/
noncomputable def daehnickMu (zt at_ : ℤ) : ℝ :=
  Real.exp (-1.0 * ((8.0 - ((at_ - zt : ℤ) : ℝ)) * 0.5) ^ 2)
  + Real.exp (-1.0 * ((20.0 - ((at_ - zt : ℤ) : ℝ)) * 0.5) ^ 2)
  + Real.exp (-1.0 * ((28.0 - ((at_ - zt : ℤ) : ℝ)) * 0.5) ^ 2)
  + Real.exp (-1.0 * ((50.0 - ((at_ - zt : ℤ) : ℝ)) * 0.5) ^ 2)
  + Real.exp (-1.0 * ((82.0 - ((at_ - zt : ℤ) : ℝ)) * 0.5) ^ 2)
  + Real.exp (-1.0 * ((126.0 - ((at_ - zt : ℤ) : ℝ)) * 0.5) ^ 2)

set_option maxHeartbeats 2000000 in
/-- Running `daehnick_potential` on any sixteen-key dict overwrites every
entry. -/
lemma daehnick_run (E : ℝ) (zt at_ : ℤ)
    (x1 x2 x3 x4 x5 x6 x7 x8 x9 x10 x11 x12 x13 x14 x15 x16 : ℝ) :
    daehnick_potential E zt at_
        (mkParams x1 x2 x3 x4 x5 x6 x7 x8 x9 x10 x11 x12 x13 x14 x15 x16) =
      mkParams
        (88.0 - 0.283 * E + 0.88 * (zt : ℝ) / (at_ : ℝ) ^ (0.333 : ℝ))
        ((12.0 + 0.031 * E) * (1.0 - Real.exp (-1.0 * (E * 0.01) ^ 2)))
        ((12.0 + 0.031 * E) * Real.exp (-1.0 * (E * 0.01) ^ 2))
        (7.2 - 0.032 * E)
        0.0
        1.17
        (1.376 - 0.01 * Real.sqrt E)
        (1.376 - 0.01 * Real.sqrt E)
        1.07
        0.0
        1.3
        (0.717 + 0.0012 * E)
        (0.52 + 0.07 * (at_ : ℝ) ^ (0.333 : ℝ) - 0.04 * daehnickMu zt at_)
        (0.52 + 0.07 * (at_ : ℝ) ^ (0.333 : ℝ) - 0.04 * daehnickMu zt at_)
        0.66
        0.0 := rfl

set_option maxHeartbeats 2000000 in
/-- Running `bojowald_potential` on any sixteen-key dict overwrites every
entry; the surface-imaginary depth reads the just-written (possibly zero)
imaginary volume depth. -/
lemma bojowald_run (E : ℝ) (zt at_ : ℤ)
    (x1 x2 x3 x4 x5 x6 x7 x8 x9 x10 x11 x12 x13 x14 x15 x16 : ℝ) :
    bojowald_potential E zt at_
        (mkParams x1 x2 x3 x4 x5 x6 x7 x8 x9 x10 x11 x12 x13 x14 x15 x16) =
      mkParams
        (81.33 - 0.24 * E + 1.43 * (zt : ℝ) / (at_ : ℝ) ^ (0.333 : ℝ))
        (if 45 < E then 0.132 * (E - 45) else 0)
        (7.8 + 1.04 * (at_ : ℝ) ^ (0.333 : ℝ)
          - 0.712 * (if 45 < E then 0.132 * (E - 45) else 0))
        6.0
        0.0
        1.18
        1.27
        1.27
        (0.78 + 0.038 * (at_ : ℝ) ^ (0.333 : ℝ))
        0.0
        1.3
        (0.636 + 0.035 * (at_ : ℝ) ^ (0.333 : ℝ))
        (0.768 + 0.021 * (at_ : ℝ) ^ (0.333 : ℝ))
        (0.768 + 0.021 * (at_ : ℝ) ^ (0.333 : ℝ))
        (0.78 + 0.038 * (at_ : ℝ) ^ (0.333 : ℝ))
        0.0 := rfl

/-- Koning-Delaroche `delta_e = E - ef`, with the Fermi energy `ef` linear in
mass number. -/
noncomputable def kdDe (E : ℝ) (at_ : ℤ) : ℝ := E - (-8.4075 + 0.01378 * (at_ : ℝ))

/-- Koning-Delaroche Coulomb radius `rc`. -/
noncomputable def kdRc (at_ : ℤ) : ℝ :=
  1.198 + 0.697 * (at_ : ℝ) ^ (-0.666 : ℝ) + 12.994 * (at_ : ℝ) ^ (-1.666 : ℝ)

/-- Koning-Delaroche real base strength `v1`. -/
noncomputable def kdV1 (zt at_ : ℤ) : ℝ :=
  59.30 + 21.0 * (((at_ - zt : ℤ) : ℝ) - (zt : ℝ)) / (at_ : ℝ) - 0.024 * (at_ : ℝ)

/-- Koning-Delaroche dispersive coefficient `v2`. -/
noncomputable def kdV2 (at_ : ℤ) : ℝ := 0.007067 + 4.23e-6 * (at_ : ℝ)

/-- Koning-Delaroche dispersive coefficient `v3`. -/
noncomputable def kdV3 (at_ : ℤ) : ℝ := 1.729e-5 + 1.136e-8 * (at_ : ℝ)

/-- Koning-Delaroche imaginary volume strength `w1`. -/
noncomputable def kdW1 (at_ : ℤ) : ℝ := 14.667 + 0.009629 * (at_ : ℝ)

/-- Koning-Delaroche imaginary volume width `w2`. -/
noncomputable def kdW2 (at_ : ℤ) : ℝ := 73.55 + 0.0795 * (at_ : ℝ)

/-- Koning-Delaroche surface strength `d1`. -/
noncomputable def kdD1 (zt at_ : ℤ) : ℝ :=
  16.0 + 16.0 * (((at_ - zt : ℤ) : ℝ) - (zt : ℝ)) / (at_ : ℝ)

/-- Koning-Delaroche surface slope `d2`. -/
noncomputable def kdD2 (at_ : ℤ) : ℝ :=
  0.0180 + 0.003802 / (1.0 + Real.exp (((at_ : ℝ) - 156.0) / 8.0))

set_option maxHeartbeats 2000000 in
/-- Running `koning_delaroche_proton_potential` on any sixteen-key dict
overwrites every entry; `ri0` reads the just-written `r0` and `rsoi0` the
just-written `rso0`. -/
lemma koning_delaroche_run (E : ℝ) (zt at_ : ℤ)
    (x1 x2 x3 x4 x5 x6 x7 x8 x9 x10 x11 x12 x13 x14 x15 x16 : ℝ) :
    koning_delaroche_proton_potential E zt at_
        (mkParams x1 x2 x3 x4 x5 x6 x7 x8 x9 x10 x11 x12 x13 x14 x15 x16) =
      mkParams
        (kdV1 zt at_ * (1.0 - kdV2 at_ * kdDe E at_ + kdV3 at_ * kdDe E at_ ^ 2
            - 7.0e-9 * kdDe E at_ ^ 3)
          + 1.73 / kdRc at_ * (zt : ℝ) * (at_ : ℝ) ^ (0.333 : ℝ) * kdV1 zt at_
            * (kdV2 at_ - 2.0 * kdV3 at_ * kdDe E at_
              + 3.0 * 7.0e-9 * kdDe E at_ ^ 2))
        (kdW1 at_ * kdDe E at_ ^ 2 / (kdDe E at_ ^ 2 + kdW2 at_ ^ 2))
        (kdD1 zt at_ * kdDe E at_ ^ 2 / (kdDe E at_ ^ 2 + 11.5 ^ 2)
          * Real.exp (-1.0 * kdD2 at_ * kdDe E at_))
        ((5.922 + 0.0030 * (at_ : ℝ)) * Real.exp (-1.0 * 0.0040 * kdDe E at_))
        (-3.1 * kdDe E at_ ^ 2 / (kdDe E at_ ^ 2 + 160 ^ 2))
        (1.3039 - 0.4054 / (at_ : ℝ) ^ (0.333 : ℝ))
        (1.3039 - 0.4054 / (at_ : ℝ) ^ (0.333 : ℝ))
        (1.3424 - 0.01585 * (at_ : ℝ) ^ (0.333 : ℝ))
        (1.1854 - 0.647 / (at_ : ℝ) ^ (0.333 : ℝ))
        (1.1854 - 0.647 / (at_ : ℝ) ^ (0.333 : ℝ))
        (kdRc at_)
        (0.6778 - 1.487e-4 * (at_ : ℝ))
        (0.6778 - 1.487e-4 * (at_ : ℝ))
        (0.5187 + 5.205e-4 * (at_ : ℝ))
        0.59
        0.59 := rfl

set_option maxHeartbeats 2000000 in
/-- Running `li_liang_cai_triton_potential` on any sixteen-key dict overwrites
every entry; although the source writes the keys in its own order, every write
is an in-place update, so the init order is preserved. -/
lemma li_liang_cai_run (E : ℝ) (zt at_ : ℤ)
    (x1 x2 x3 x4 x5 x6 x7 x8 x9 x10 x11 x12 x13 x14 x15 x16 : ℝ) :
    li_liang_cai_triton_potential E zt at_
        (mkParams x1 x2 x3 x4 x5 x6 x7 x8 x9 x10 x11 x12 x13 x14 x15 x16) =
      mkParams
        (137.6 - 0.1456 * E + 0.0436 * E ^ 2
          + 4.3751 * (((at_ - zt : ℤ) : ℝ) - (zt : ℝ)) / (at_ : ℝ)
          + 1.0474 * (zt : ℝ) / (at_ : ℝ) ^ ((1.0 : ℝ) / 3.0))
        (7.383 + 0.5025 * E - 0.0097 * E ^ 2)
        (37.06 - 0.6451 * E - 47.19 * (((at_ - zt : ℤ) : ℝ) - (zt : ℝ)) / (at_ : ℝ))
        1.9029
        0.0
        (1.1201 - 0.1504 / (at_ : ℝ) ^ ((1.0 : ℝ) / 3.0))
        (1.3202 - 0.1776 / (at_ : ℝ) ^ ((1.0 : ℝ) / 3.0))
        (1.251 - 0.4622 / (at_ : ℝ) ^ ((1.0 : ℝ) / 3.0))
        (0.46991 + 0.1294 / (at_ : ℝ) ^ ((1.0 : ℝ) / 3.0))
        0.0
        1.422
        (0.6833 + 0.0191 * (at_ : ℝ) ^ ((1.0 : ℝ) / 3.0))
        (1.119 + 0.01913 * (at_ : ℝ) ^ ((1.0 : ℝ) / 3.0))
        (0.8114 + 0.01159 * (at_ : ℝ) ^ ((1.0 : ℝ) / 3.0))
        (0.3545 - 0.0522 * (at_ : ℝ) ^ ((1.0 : ℝ) / 3.0))
        0.0 := rfl

/-- A parameter set whose key list is exactly the sixteen keys is `mkParams`
at some sixteen values. -/
lemma paramSet_shape (p : ParameterSet) (h : keysOf p = paramKeys) :
    ∃ x1 x2 x3 x4 x5 x6 x7 x8 x9 x10 x11 x12 x13 x14 x15 x16 : ℝ,
      p = mkParams x1 x2 x3 x4 x5 x6 x7 x8 x9 x10 x11 x12 x13 x14 x15 x16 := by
  rcases p with _ | ⟨⟨k1, x1⟩, p⟩
  · exact absurd h (by simp [keysOf, paramKeys])
  rcases p with _ | ⟨⟨k2, x2⟩, p⟩
  · exact absurd h (by simp [keysOf, paramKeys])
  rcases p with _ | ⟨⟨k3, x3⟩, p⟩
  · exact absurd h (by simp [keysOf, paramKeys])
  rcases p with _ | ⟨⟨k4, x4⟩, p⟩
  · exact absurd h (by simp [keysOf, paramKeys])
  rcases p with _ | ⟨⟨k5, x5⟩, p⟩
  · exact absurd h (by simp [keysOf, paramKeys])
  rcases p with _ | ⟨⟨k6, x6⟩, p⟩
  · exact absurd h (by simp [keysOf, paramKeys])
  rcases p with _ | ⟨⟨k7, x7⟩, p⟩
  · exact absurd h (by simp [keysOf, paramKeys])
  rcases p with _ | ⟨⟨k8, x8⟩, p⟩
  · exact absurd h (by simp [keysOf, paramKeys])
  rcases p with _ | ⟨⟨k9, x9⟩, p⟩
  · exact absurd h (by simp [keysOf, paramKeys])
  rcases p with _ | ⟨⟨k10, x10⟩, p⟩
  · exact absurd h (by simp [keysOf, paramKeys])
  rcases p with _ | ⟨⟨k11, x11⟩, p⟩
  · exact absurd h (by simp [keysOf, paramKeys])
  rcases p with _ | ⟨⟨k12, x12⟩, p⟩
  · exact absurd h (by simp [keysOf, paramKeys])
  rcases p with _ | ⟨⟨k13, x13⟩, p⟩
  · exact absurd h (by simp [keysOf, paramKeys])
  rcases p with _ | ⟨⟨k14, x14⟩, p⟩
  · exact absurd h (by simp [keysOf, paramKeys])
  rcases p with _ | ⟨⟨k15, x15⟩, p⟩
  · exact absurd h (by simp [keysOf, paramKeys])
  rcases p with _ | ⟨⟨k16, x16⟩, p⟩
  · exact absurd h (by simp [keysOf, paramKeys])
  rcases p with _ | ⟨⟨k17, x17⟩, p⟩
  · simp only [keysOf, paramKeys, List.map_cons, List.map_nil,
      List.cons.injEq, and_true] at h
    obtain ⟨rfl, rfl, rfl, rfl, rfl, rfl, rfl, rfl, rfl, rfl, rfl, rfl, rfl,
      rfl, rfl, rfl⟩ := h
    exact ⟨x1, x2, x3, x4, x5, x6, x7, x8, x9, x10, x11, x12, x13, x14, x15,
      x16, rfl⟩
  · exact absurd h (by simp [keysOf, paramKeys])

/-- Registry lookup fails exactly on the keywords outside the registry. -/
lemma findFn_eq_none_iff (pot : String) :
    findFn pot POTENTIALS = none ↔ pot ∉ POTENTIAL_KEYWORDS := by
  simp only [findFn, POTENTIALS, POTENTIAL_KEYWORDS, AN_CAI, DAEHNICK, BOJOWALD,
    KONING_DELAROCHE_PROTON, LI_LIANG_CAI_TRITON, List.mem_cons,
    List.not_mem_nil, or_false, List.mem_singleton]
  split_ifs with h1 h2 h3 h4 h5 <;> simp_all [eq_comm]

/-- Dispatch at the An-Cai keyword. -/
lemma create_parameters_an_cai (E : ℝ) (zt at_ : ℤ) :
    create_parameters E zt at_ AN_CAI =
      Except.ok (an_cai_potential E zt at_ initParams) := rfl

/-- Dispatch at the Daehnick keyword. -/
lemma create_parameters_daehnick (E : ℝ) (zt at_ : ℤ) :
    create_parameters E zt at_ DAEHNICK =
      Except.ok (daehnick_potential E zt at_ initParams) := rfl

/-- Dispatch at the Bojowald keyword. -/
lemma create_parameters_bojowald (E : ℝ) (zt at_ : ℤ) :
    create_parameters E zt at_ BOJOWALD =
      Except.ok (bojowald_potential E zt at_ initParams) := rfl

/-- Dispatch at the Koning-Delaroche proton keyword. -/
lemma create_parameters_kd (E : ℝ) (zt at_ : ℤ) :
    create_parameters E zt at_ KONING_DELAROCHE_PROTON =
      Except.ok (koning_delaroche_proton_potential E zt at_ initParams) := rfl

/-- Dispatch at the Li-Liang-Cai triton keyword. -/
lemma create_parameters_llc (E : ℝ) (zt at_ : ℤ) :
    create_parameters E zt at_ LI_LIANG_CAI_TRITON =
      Except.ok (li_liang_cai_triton_potential E zt at_ initParams) := rfl

/-- Dispatch at an unregistered keyword raises with the enumerating message. -/
lemma create_parameters_not_found (E : ℝ) (zt at_ : ℤ) (pot : String)
    (h : pot ∉ POTENTIAL_KEYWORDS) :
    create_parameters E zt at_ pot =
      Except.error (unknownPotentialMessage pot) := by
  unfold create_parameters
  rw [(findFn_eq_none_iff pot).mpr h]

/-- A string made by appending `b` to the right of `a` contains any block
decomposition of `b`. -/
lemma contains_append_tail (a b pre0 post0 k : String)
    (h : b = pre0 ++ k ++ post0) :
    ∃ pre post, a ++ b = pre ++ k ++ post :=
  ⟨a ++ pre0, post0, by rw [h]; simp [String.append_assoc]⟩

/-- C1: for every registered potential identifier and every input `(E, zt, at)`,
`create_parameters` returns a ParameterSet whose key set is exactly the sixteen
keys `V, Vi, Vsi, Vso, Vsoi, r0, ri0, rsi0, rso0, rsoi0, rc0, a, ai, asi, aso,
asoi` — no key missing and no extra key. -/
theorem create_parameters_key_set (E : ℝ) (zt at_ : ℤ) (pot : String)
    (hpot : pot ∈ POTENTIAL_KEYWORDS) (ps : ParameterSet)
    (hps : create_parameters E zt at_ pot = Except.ok ps) :
    keysOf ps = paramKeys := by
  simp only [POTENTIAL_KEYWORDS, List.mem_cons, List.not_mem_nil,
    or_false] at hpot
  rcases hpot with rfl | rfl | rfl | rfl | rfl
  · rw [create_parameters_an_cai] at hps
    obtain rfl := Except.ok.inj hps
    rw [initParams_eq, an_cai_run]
    rfl
  · rw [create_parameters_daehnick] at hps
    obtain rfl := Except.ok.inj hps
    rw [initParams_eq, daehnick_run]
    rfl
  · rw [create_parameters_bojowald] at hps
    obtain rfl := Except.ok.inj hps
    rw [initParams_eq, bojowald_run]
    rfl
  · rw [create_parameters_kd] at hps
    obtain rfl := Except.ok.inj hps
    rw [initParams_eq, koning_delaroche_run]
    rfl
  · rw [create_parameters_llc] at hps
    obtain rfl := Except.ok.inj hps
    rw [initParams_eq, li_liang_cai_run]
    rfl

/-- Witness for C1 at the concrete call `create_parameters(20.0, 20, 40,
"an-cai")`. -/
theorem create_parameters_key_set_witness :
    keysOf (an_cai_potential 20 20 40 initParams) = paramKeys :=
  create_parameters_key_set 20 20 40 AN_CAI (by simp [POTENTIAL_KEYWORDS])
    (an_cai_potential 20 20 40 initParams) (create_parameters_an_cai 20 20 40)

/-- C2: `create_parameters` fails exactly on identifiers outside the five
registered keywords; the raised error carries the message that enumerates all
five valid keywords, and every registered keyword succeeds. -/
theorem create_parameters_validation (E : ℝ) (zt at_ : ℤ) (pot : String) :
    ((∃ msg, create_parameters E zt at_ pot = Except.error msg) ↔
      pot ∉ POTENTIAL_KEYWORDS)
    ∧ (pot ∉ POTENTIAL_KEYWORDS →
        create_parameters E zt at_ pot =
          Except.error (unknownPotentialMessage pot)
        ∧ ∀ k ∈ POTENTIAL_KEYWORDS,
            ∃ pre post, unknownPotentialMessage pot = pre ++ k ++ post)
    ∧ (pot ∈ POTENTIAL_KEYWORDS →
        ∃ ps, create_parameters E zt at_ pot = Except.ok ps) := by
  refine ⟨⟨?_, ?_⟩, ?_, ?_⟩
  · rintro ⟨msg, hmsg⟩ hmem
    simp only [POTENTIAL_KEYWORDS, List.mem_cons, List.not_mem_nil,
      or_false] at hmem
    rcases hmem with rfl | rfl | rfl | rfl | rfl
    · rw [create_parameters_an_cai] at hmsg
      exact Except.noConfusion hmsg
    · rw [create_parameters_daehnick] at hmsg
      exact Except.noConfusion hmsg
    · rw [create_parameters_bojowald] at hmsg
      exact Except.noConfusion hmsg
    · rw [create_parameters_kd] at hmsg
      exact Except.noConfusion hmsg
    · rw [create_parameters_llc] at hmsg
      exact Except.noConfusion hmsg
  · intro hnot
    exact ⟨unknownPotentialMessage pot, create_parameters_not_found E zt at_ pot hnot⟩
  · intro hnot
    refine ⟨create_parameters_not_found E zt at_ pot hnot, ?_⟩
    intro k hk
    have hsplit : unknownPotentialMessage pot =
        ("Potential " ++ pot) ++
          (" is not in the set of allowed Potentials " ++ keywordsRepr ++ "!") := by
      simp [unknownPotentialMessage, String.append_assoc]
    rw [hsplit]
    simp only [POTENTIAL_KEYWORDS, List.mem_cons, List.not_mem_nil,
      or_false] at hk
    rcases hk with rfl | rfl | rfl | rfl | rfl
    · exact contains_append_tail _ _
        " is not in the set of allowed Potentials dict_keys(['"
        "', 'daehnick', 'bojowald', 'koning-delaroche-proton', 'li-liang-cai-triton'])!"
        _ (by decide)
    · exact contains_append_tail _ _
        " is not in the set of allowed Potentials dict_keys(['an-cai', '"
        "', 'bojowald', 'koning-delaroche-proton', 'li-liang-cai-triton'])!"
        _ (by decide)
    · exact contains_append_tail _ _
        " is not in the set of allowed Potentials dict_keys(['an-cai', 'daehnick', '"
        "', 'koning-delaroche-proton', 'li-liang-cai-triton'])!"
        _ (by decide)
    · exact contains_append_tail _ _
        " is not in the set of allowed Potentials dict_keys(['an-cai', 'daehnick', 'bojowald', '"
        "', 'li-liang-cai-triton'])!"
        _ (by decide)
    · exact contains_append_tail _ _
        " is not in the set of allowed Potentials dict_keys(['an-cai', 'daehnick', 'bojowald', 'koning-delaroche-proton', '"
        "'])!"
        _ (by decide)
  · intro hmem
    simp only [POTENTIAL_KEYWORDS, List.mem_cons, List.not_mem_nil,
      or_false] at hmem
    rcases hmem with rfl | rfl | rfl | rfl | rfl
    · exact ⟨_, create_parameters_an_cai E zt at_⟩
    · exact ⟨_, create_parameters_daehnick E zt at_⟩
    · exact ⟨_, create_parameters_bojowald E zt at_⟩
    · exact ⟨_, create_parameters_kd E zt at_⟩
    · exact ⟨_, create_parameters_llc E zt at_⟩

/-- Witness for C2 at the concrete scenario `create_parameters(10.0, 6, 12,
"unknown-potential")`: it fails with the enumerating message, and the message
contains the keyword `an-cai`. -/
theorem create_parameters_validation_witness :
    create_parameters 10 6 12 "unknown-potential" =
      Except.error (unknownPotentialMessage "unknown-potential")
    ∧ ∃ pre post,
        unknownPotentialMessage "unknown-potential" = pre ++ AN_CAI ++ post := by
  have h := create_parameters_validation 10 6 12 "unknown-potential"
  have hnot : "unknown-potential" ∉ POTENTIAL_KEYWORDS := by decide
  exact ⟨(h.2.1 hnot).1, (h.2.1 hnot).2 AN_CAI (by decide)⟩

/-- C9: `create_parameters` (and hence each formula it dispatches to) is a
pure function of its arguments — two calls with identical `(E, zt, at)` and
identifier give identical sixteen-entry outputs, with no hidden state. -/
theorem create_parameters_deterministic (E1 E2 : ℝ) (zt1 zt2 at1 at2 : ℤ)
    (pot1 pot2 : String) (hE : E1 = E2) (hz : zt1 = zt2) (ha : at1 = at2)
    (hp : pot1 = pot2) :
    create_parameters E1 zt1 at1 pot1 = create_parameters E2 zt2 at2 pot2 := by
  subst hE
  subst hz
  subst ha
  subst hp
  rfl

/-- Witness for C9 at the concrete call `create_parameters(20.0, 20, 40,
"an-cai")` repeated twice. -/
theorem create_parameters_deterministic_witness :
    create_parameters 20 20 40 AN_CAI = create_parameters 20 20 40 AN_CAI :=
  create_parameters_deterministic 20 20 20 20 40 40 AN_CAI AN_CAI rfl rfl rfl rfl

/-- Entry `V` of a sixteen-key set. -/
lemma getv_V (x1 x2 x3 x4 x5 x6 x7 x8 x9 x10 x11 x12 x13 x14 x15 x16 : ℝ) :
    getv "V" (mkParams x1 x2 x3 x4 x5 x6 x7 x8 x9 x10 x11 x12 x13 x14 x15 x16) = x1 := rfl

/-- Entry `Vi` of a sixteen-key set. -/
lemma getv_Vi (x1 x2 x3 x4 x5 x6 x7 x8 x9 x10 x11 x12 x13 x14 x15 x16 : ℝ) :
    getv "Vi" (mkParams x1 x2 x3 x4 x5 x6 x7 x8 x9 x10 x11 x12 x13 x14 x15 x16) = x2 := rfl

/-- Entry `Vsi` of a sixteen-key set. -/
lemma getv_Vsi (x1 x2 x3 x4 x5 x6 x7 x8 x9 x10 x11 x12 x13 x14 x15 x16 : ℝ) :
    getv "Vsi" (mkParams x1 x2 x3 x4 x5 x6 x7 x8 x9 x10 x11 x12 x13 x14 x15 x16) = x3 := rfl

/-- Entry `Vso` of a sixteen-key set. -/
lemma getv_Vso (x1 x2 x3 x4 x5 x6 x7 x8 x9 x10 x11 x12 x13 x14 x15 x16 : ℝ) :
    getv "Vso" (mkParams x1 x2 x3 x4 x5 x6 x7 x8 x9 x10 x11 x12 x13 x14 x15 x16) = x4 := rfl

/-- Entry `Vsoi` of a sixteen-key set. -/
lemma getv_Vsoi (x1 x2 x3 x4 x5 x6 x7 x8 x9 x10 x11 x12 x13 x14 x15 x16 : ℝ) :
    getv "Vsoi" (mkParams x1 x2 x3 x4 x5 x6 x7 x8 x9 x10 x11 x12 x13 x14 x15 x16) = x5 := rfl

/-- Entry `r0` of a sixteen-key set. -/
lemma getv_r0 (x1 x2 x3 x4 x5 x6 x7 x8 x9 x10 x11 x12 x13 x14 x15 x16 : ℝ) :
    getv "r0" (mkParams x1 x2 x3 x4 x5 x6 x7 x8 x9 x10 x11 x12 x13 x14 x15 x16) = x6 := rfl

/-- Entry `ri0` of a sixteen-key set. -/
lemma getv_ri0 (x1 x2 x3 x4 x5 x6 x7 x8 x9 x10 x11 x12 x13 x14 x15 x16 : ℝ) :
    getv "ri0" (mkParams x1 x2 x3 x4 x5 x6 x7 x8 x9 x10 x11 x12 x13 x14 x15 x16) = x7 := rfl

/-- Entry `rsi0` of a sixteen-key set. -/
lemma getv_rsi0 (x1 x2 x3 x4 x5 x6 x7 x8 x9 x10 x11 x12 x13 x14 x15 x16 : ℝ) :
    getv "rsi0" (mkParams x1 x2 x3 x4 x5 x6 x7 x8 x9 x10 x11 x12 x13 x14 x15 x16) = x8 := rfl

/-- Entry `rso0` of a sixteen-key set. -/
lemma getv_rso0 (x1 x2 x3 x4 x5 x6 x7 x8 x9 x10 x11 x12 x13 x14 x15 x16 : ℝ) :
    getv "rso0" (mkParams x1 x2 x3 x4 x5 x6 x7 x8 x9 x10 x11 x12 x13 x14 x15 x16) = x9 := rfl

/-- Entry `rsoi0` of a sixteen-key set. -/
lemma getv_rsoi0 (x1 x2 x3 x4 x5 x6 x7 x8 x9 x10 x11 x12 x13 x14 x15 x16 : ℝ) :
    getv "rsoi0" (mkParams x1 x2 x3 x4 x5 x6 x7 x8 x9 x10 x11 x12 x13 x14 x15 x16) = x10 := rfl

/-- Entry `rc0` of a sixteen-key set. -/
lemma getv_rc0 (x1 x2 x3 x4 x5 x6 x7 x8 x9 x10 x11 x12 x13 x14 x15 x16 : ℝ) :
    getv "rc0" (mkParams x1 x2 x3 x4 x5 x6 x7 x8 x9 x10 x11 x12 x13 x14 x15 x16) = x11 := rfl

/-- Entry `a` of a sixteen-key set. -/
lemma getv_a (x1 x2 x3 x4 x5 x6 x7 x8 x9 x10 x11 x12 x13 x14 x15 x16 : ℝ) :
    getv "a" (mkParams x1 x2 x3 x4 x5 x6 x7 x8 x9 x10 x11 x12 x13 x14 x15 x16) = x12 := rfl

/-- Entry `ai` of a sixteen-key set. -/
lemma getv_ai (x1 x2 x3 x4 x5 x6 x7 x8 x9 x10 x11 x12 x13 x14 x15 x16 : ℝ) :
    getv "ai" (mkParams x1 x2 x3 x4 x5 x6 x7 x8 x9 x10 x11 x12 x13 x14 x15 x16) = x13 := rfl

/-- Entry `asi` of a sixteen-key set. -/
lemma getv_asi (x1 x2 x3 x4 x5 x6 x7 x8 x9 x10 x11 x12 x13 x14 x15 x16 : ℝ) :
    getv "asi" (mkParams x1 x2 x3 x4 x5 x6 x7 x8 x9 x10 x11 x12 x13 x14 x15 x16) = x14 := rfl

/-- Entry `aso` of a sixteen-key set. -/
lemma getv_aso (x1 x2 x3 x4 x5 x6 x7 x8 x9 x10 x11 x12 x13 x14 x15 x16 : ℝ) :
    getv "aso" (mkParams x1 x2 x3 x4 x5 x6 x7 x8 x9 x10 x11 x12 x13 x14 x15 x16) = x15 := rfl

/-- Entry `asoi` of a sixteen-key set. -/
lemma getv_asoi (x1 x2 x3 x4 x5 x6 x7 x8 x9 x10 x11 x12 x13 x14 x15 x16 : ℝ) :
    getv "asoi" (mkParams x1 x2 x3 x4 x5 x6 x7 x8 x9 x10 x11 x12 x13 x14 x15 x16) = x16 := rfl

/-- C3: the An-Cai formula sets `V = 91.85 - 0.249*E + 1.116e-4*E^2 +
0.642*zt/at^0.333` and all spin-orbit-imaginary terms (`Vsoi`, `rsoi0`,
`asoi`) to zero, for every `(E, zt, at)`. -/
theorem an_cai_values (E : ℝ) (zt at_ : ℤ) (ps : ParameterSet)
    (hps : create_parameters E zt at_ AN_CAI = Except.ok ps) :
    getv "V" ps = 91.85 - 0.249 * E + 1.116e-4 * E ^ 2
        + 0.642 * (zt : ℝ) / (at_ : ℝ) ^ (0.333 : ℝ)
    ∧ getv "Vsoi" ps = 0 ∧ getv "rsoi0" ps = 0 ∧ getv "asoi" ps = 0 := by
  rw [create_parameters_an_cai] at hps
  obtain rfl := Except.ok.inj hps
  rw [initParams_eq, an_cai_run, getv_V, getv_Vsoi, getv_rsoi0, getv_asoi]
  norm_num

/-- Witness for C3 at the concrete call `create_parameters(20.0, 20, 40,
"an-cai")`: `V` is the published polynomial evaluated there and the
spin-orbit-imaginary entries are zero. -/
theorem an_cai_values_witness :
    getv "V" (an_cai_potential 20 20 40 initParams) =
        91.85 - 0.249 * 20 + 1.116e-4 * 20 ^ 2
          + 0.642 * ((20 : ℤ) : ℝ) / (((40 : ℤ) : ℝ)) ^ (0.333 : ℝ)
    ∧ getv "Vsoi" (an_cai_potential 20 20 40 initParams) = 0
    ∧ getv "rsoi0" (an_cai_potential 20 20 40 initParams) = 0
    ∧ getv "asoi" (an_cai_potential 20 20 40 initParams) = 0 :=
  an_cai_values 20 20 40 _ (create_parameters_an_cai 20 20 40)

/-- C4: in the Bojowald model the imaginary volume depth vanishes at or below
45 MeV and equals `0.132*(E-45)` above, and the surface-imaginary depth is
`7.8 + 1.04*at^0.333 - 0.712*Vi`, for every `(E, zt, at)`. -/
theorem bojowald_threshold (E : ℝ) (zt at_ : ℤ) (ps : ParameterSet)
    (hps : create_parameters E zt at_ BOJOWALD = Except.ok ps) :
    (E ≤ 45 → getv "Vi" ps = 0)
    ∧ (45 < E → getv "Vi" ps = 0.132 * (E - 45))
    ∧ getv "Vsi" ps = 7.8 + 1.04 * (at_ : ℝ) ^ (0.333 : ℝ)
        - 0.712 * getv "Vi" ps := by
  rw [create_parameters_bojowald] at hps
  obtain rfl := Except.ok.inj hps
  rw [initParams_eq, bojowald_run, getv_Vi, getv_Vsi]
  refine ⟨?_, ?_, rfl⟩
  · intro hE
    rw [if_neg (not_lt.mpr hE)]
  · intro hE
    rw [if_pos hE]

/-- Witness for C4 at the concrete call `create_parameters(30.0, 6, 12,
"bojowald")`: since `E = 30 <= 45`, `Vi` is exactly zero and `Vsi` is
`7.8 + 1.04*12^0.333 - 0.712*0`. -/
theorem bojowald_threshold_witness :
    getv "Vi" (bojowald_potential 30 6 12 initParams) = 0
    ∧ getv "Vsi" (bojowald_potential 30 6 12 initParams) =
        7.8 + 1.04 * ((12 : ℤ) : ℝ) ^ (0.333 : ℝ) - 0.712 * 0 := by
  have h := bojowald_threshold 30 6 12 _ (create_parameters_bojowald 30 6 12)
  have hVi := h.1 (by norm_num)
  refine ⟨hVi, ?_⟩
  rw [h.2.2, hVi]

/-- C5: the Koning-Delaroche proton formula sets `rso0 = rsoi0` and
`ri0 = r0` by definition, for every `(E, zt, at)`. -/
theorem kd_radius_identities (E : ℝ) (zt at_ : ℤ) (ps : ParameterSet)
    (hps : create_parameters E zt at_ KONING_DELAROCHE_PROTON = Except.ok ps) :
    getv "rso0" ps = getv "rsoi0" ps ∧ getv "ri0" ps = getv "r0" ps := by
  rw [create_parameters_kd] at hps
  obtain rfl := Except.ok.inj hps
  rw [initParams_eq, koning_delaroche_run, getv_rso0, getv_rsoi0, getv_ri0,
    getv_r0]
  exact ⟨rfl, rfl⟩

/-- Witness for C5 at the concrete call `create_parameters(50.0, 28, 58,
"koning-delaroche-proton")`. -/
theorem kd_radius_identities_witness :
    getv "rso0" (koning_delaroche_proton_potential 50 28 58 initParams) =
      getv "rsoi0" (koning_delaroche_proton_potential 50 28 58 initParams)
    ∧ getv "ri0" (koning_delaroche_proton_potential 50 28 58 initParams) =
      getv "r0" (koning_delaroche_proton_potential 50 28 58 initParams) :=
  kd_radius_identities 50 28 58 _ (create_parameters_kd 50 28 58)

/-- C6: in the Daehnick model the smoothing term is the sum of six Gaussians
`exp(-((N - nt)*0.5)^2)` for `N` in `{8, 20, 28, 50, 82, 126}` (observable
through `ai` and `asi`), and the total imaginary strength `12 + 0.031*E` is
split between surface and volume via `exp(-(E/100)^2)`, so `Vi + Vsi`
recovers `12 + 0.031*E` exactly. -/
theorem daehnick_energy_split (E : ℝ) (zt at_ : ℤ) (ps : ParameterSet)
    (hps : create_parameters E zt at_ DAEHNICK = Except.ok ps) :
    getv "Vsi" ps = (12 + 0.031 * E) * Real.exp (-(E / 100) ^ 2)
    ∧ getv "Vi" ps = (12 + 0.031 * E) * (1 - Real.exp (-(E / 100) ^ 2))
    ∧ getv "Vi" ps + getv "Vsi" ps = 12 + 0.031 * E
    ∧ getv "ai" ps = 0.52 + 0.07 * (at_ : ℝ) ^ (0.333 : ℝ) - 0.04 *
        (Real.exp (-((8 - ((at_ - zt : ℤ) : ℝ)) * 0.5) ^ 2)
         + Real.exp (-((20 - ((at_ - zt : ℤ) : ℝ)) * 0.5) ^ 2)
         + Real.exp (-((28 - ((at_ - zt : ℤ) : ℝ)) * 0.5) ^ 2)
         + Real.exp (-((50 - ((at_ - zt : ℤ) : ℝ)) * 0.5) ^ 2)
         + Real.exp (-((82 - ((at_ - zt : ℤ) : ℝ)) * 0.5) ^ 2)
         + Real.exp (-((126 - ((at_ - zt : ℤ) : ℝ)) * 0.5) ^ 2))
    ∧ getv "asi" ps = getv "ai" ps := by
  rw [create_parameters_daehnick] at hps
  obtain rfl := Except.ok.inj hps
  rw [initParams_eq, daehnick_run, getv_Vsi, getv_Vi, getv_ai, getv_asi]
  have hbeta : (-1.0 * (E * 0.01) ^ 2 : ℝ) = -(E / 100) ^ 2 := by ring
  rw [hbeta]
  have hmu : daehnickMu zt at_ =
      Real.exp (-((8 - ((at_ - zt : ℤ) : ℝ)) * 0.5) ^ 2)
      + Real.exp (-((20 - ((at_ - zt : ℤ) : ℝ)) * 0.5) ^ 2)
      + Real.exp (-((28 - ((at_ - zt : ℤ) : ℝ)) * 0.5) ^ 2)
      + Real.exp (-((50 - ((at_ - zt : ℤ) : ℝ)) * 0.5) ^ 2)
      + Real.exp (-((82 - ((at_ - zt : ℤ) : ℝ)) * 0.5) ^ 2)
      + Real.exp (-((126 - ((at_ - zt : ℤ) : ℝ)) * 0.5) ^ 2) := by
    unfold daehnickMu
    norm_num
  rw [hmu]
  refine ⟨by norm_num, by norm_num, by ring, by norm_num, rfl⟩

/-- Witness for C6 at the concrete call `create_parameters(10.0, 6, 12,
"daehnick")`. -/
theorem daehnick_energy_split_witness :
    getv "Vsi" (daehnick_potential 10 6 12 initParams) =
        (12 + 0.031 * 10) * Real.exp (-((10 : ℝ) / 100) ^ 2)
    ∧ getv "Vi" (daehnick_potential 10 6 12 initParams) =
        (12 + 0.031 * 10) * (1 - Real.exp (-((10 : ℝ) / 100) ^ 2))
    ∧ getv "Vi" (daehnick_potential 10 6 12 initParams)
        + getv "Vsi" (daehnick_potential 10 6 12 initParams) = 12 + 0.031 * 10 := by
  have h := daehnick_energy_split 10 6 12 _ (create_parameters_daehnick 10 6 12)
  exact ⟨h.1, h.2.1, h.2.2.1⟩

/-- C10: each of the five formulas overwrites all sixteen keys and never reads
a value it did not itself write during the call, so on any two sixteen-key
input dicts (whatever their initial values) the same formula with the same
`(E, zt, at)` produces identical contents; in particular the
zero-initialization done by `create_parameters` is unobservable. -/
theorem formulas_overwrite_input (pot : String)
    (hpot : pot ∈ POTENTIAL_KEYWORDS) (f : PotentialFn)
    (hf : findFn pot POTENTIALS = some f) (E : ℝ) (zt at_ : ℤ)
    (p1 p2 : ParameterSet) (h1 : keysOf p1 = paramKeys)
    (h2 : keysOf p2 = paramKeys) :
    f E zt at_ p1 = f E zt at_ p2 := by
  obtain ⟨a1, a2, a3, a4, a5, a6, a7, a8, a9, a10, a11, a12, a13, a14, a15,
    a16, rfl⟩ := paramSet_shape p1 h1
  obtain ⟨b1, b2, b3, b4, b5, b6, b7, b8, b9, b10, b11, b12, b13, b14, b15,
    b16, rfl⟩ := paramSet_shape p2 h2
  simp only [POTENTIAL_KEYWORDS, List.mem_cons, List.not_mem_nil,
    or_false] at hpot
  rcases hpot with rfl | rfl | rfl | rfl | rfl
  · obtain rfl := Option.some.inj hf
    rw [an_cai_run, an_cai_run]
  · obtain rfl := Option.some.inj hf
    rw [daehnick_run, daehnick_run]
  · obtain rfl := Option.some.inj hf
    rw [bojowald_run, bojowald_run]
  · obtain rfl := Option.some.inj hf
    rw [koning_delaroche_run, koning_delaroche_run]
  · obtain rfl := Option.some.inj hf
    rw [li_liang_cai_run, li_liang_cai_run]

/-- Witness for C10: the An-Cai formula erases the difference between the
zero-filled dict and an all-ones dict. -/
theorem formulas_overwrite_input_witness :
    an_cai_potential 20 20 40 initParams =
      an_cai_potential 20 20 40 (mkParams 1 1 1 1 1 1 1 1 1 1 1 1 1 1 1 1) :=
  formulas_overwrite_input AN_CAI (by simp [POTENTIAL_KEYWORDS])
    an_cai_potential rfl 20 20 40 initParams
    (mkParams 1 1 1 1 1 1 1 1 1 1 1 1 1 1 1 1) rfl rfl

/-- Cubing undoes the one-third power of a positive integer cast. -/
lemma llc_cube_rpow (at_ : ℤ) (hat : 0 < at_) :
    ((at_ : ℝ) ^ ((1.0 : ℝ) / 3.0)) ^ 3 = (at_ : ℝ) := by
  have hA : (0:ℝ) ≤ (at_ : ℝ) := by positivity
  rw [← Real.rpow_natCast ((at_ : ℝ) ^ ((1.0 : ℝ) / 3.0)) 3,
    ← Real.rpow_mul hA]
  norm_num

/-- No positive integer mass number satisfies `8.7502*at^(1/3) = 1.0474*at`;
cubing would force `at^2 = 87502^3/10474^3`, which lies strictly between
`24^2` and `25^2`. -/
lemma llc_no_fixed_ratio (at_ : ℤ) (hat : 0 < at_)
    (h : 8.7502 * ((at_ : ℝ) ^ ((1.0 : ℝ) / 3.0)) = 1.0474 * (at_ : ℝ)) :
    False := by
  have hA : (0:ℝ) < (at_ : ℝ) := by exact_mod_cast hat
  have hA0 : (at_ : ℝ) ≠ 0 := ne_of_gt hA
  have hc := congrArg (fun x : ℝ => x ^ 3) h
  simp only [mul_pow] at hc
  rw [llc_cube_rpow at_ hat] at hc
  have h2 : (8.7502 : ℝ) ^ 3 * (at_ : ℝ)
      = (1.0474 ^ 3 * (at_ : ℝ) ^ 2) * (at_ : ℝ) := by
    linear_combination hc
  have h3 : (8.7502 : ℝ) ^ 3 = 1.0474 ^ 3 * (at_ : ℝ) ^ 2 :=
    mul_right_cancel₀ hA0 h2
  have hz : (87502 : ℤ) ^ 3 = 10474 ^ 3 * at_ ^ 2 := by
    have hr : ((87502 : ℤ) ^ 3 : ℝ) = (((10474 : ℤ) ^ 3 * at_ ^ 2 : ℤ) : ℝ) := by
      push_cast
      linear_combination (10 : ℝ) ^ 12 * h3
    exact_mod_cast hr
  rcases le_or_lt at_ 24 with h24 | h25
  · have hsq : at_ ^ 2 ≤ 576 := by nlinarith
    have hb : (10474 : ℤ) ^ 3 * at_ ^ 2 ≤ 10474 ^ 3 * 576 := by
      have := mul_le_mul_of_nonneg_left hsq (by positivity : (0:ℤ) ≤ 10474 ^ 3)
      linarith
    rw [← hz] at hb
    norm_num at hb
  · have hsq : 625 ≤ at_ ^ 2 := by nlinarith
    have hb : (10474 : ℤ) ^ 3 * 625 ≤ 10474 ^ 3 * at_ ^ 2 := by
      have := mul_le_mul_of_nonneg_left hsq (by positivity : (0:ℤ) ≤ 10474 ^ 3)
      linarith
    rw [← hz] at hb
    norm_num at hb

/-- C7: for the Li-Liang-Cai triton model with `zt = at` (so `nt = 0`), the
isospin-asymmetry term `(nt - zt)/at` is exactly `-1`, making
`V = 137.6 - 0.1456*E + 0.0436*E^2 + 4.3751*(-1) + 1.0474*zt/at^(1/3)` and
`Vsi = 37.06 - 0.6451*E - 47.19*(-1)`; both `V` and `Vsi` differ from any call
with the same `E` and `at` but positive neutron excess. -/
theorem llc_isospin_asymmetry (E : ℝ) (at_ : ℤ) (hat : 0 < at_)
    (ps : ParameterSet)
    (hps : create_parameters E at_ at_ LI_LIANG_CAI_TRITON = Except.ok ps) :
    (((at_ - at_ : ℤ) : ℝ) - (at_ : ℝ)) / (at_ : ℝ) = -1
    ∧ getv "V" ps = 137.6 - 0.1456 * E + 0.0436 * E ^ 2 + 4.3751 * (-1)
        + 1.0474 * (at_ : ℝ) / (at_ : ℝ) ^ ((1 : ℝ) / 3)
    ∧ getv "Vsi" ps = 37.06 - 0.6451 * E - 47.19 * (-1)
    ∧ ∀ zt2 : ℤ, 0 < at_ - zt2 → ∀ ps2 : ParameterSet,
        create_parameters E zt2 at_ LI_LIANG_CAI_TRITON = Except.ok ps2 →
        getv "V" ps2 ≠ getv "V" ps ∧ getv "Vsi" ps2 ≠ getv "Vsi" ps := by
  rw [create_parameters_llc] at hps
  obtain rfl := Except.ok.inj hps
  have hA : (0:ℝ) < (at_ : ℝ) := by exact_mod_cast hat
  have hA0 : (at_ : ℝ) ≠ 0 := ne_of_gt hA
  have ha3pos : (0:ℝ) < (at_ : ℝ) ^ ((1.0 : ℝ) / 3.0) :=
    Real.rpow_pos_of_pos hA _
  have ha30 : (at_ : ℝ) ^ ((1.0 : ℝ) / 3.0) ≠ 0 := ne_of_gt ha3pos
  have hexp : ((1.0 : ℝ) / 3.0) = ((1 : ℝ) / 3) := by norm_num
  refine ⟨?_, ?_, ?_, ?_⟩
  · rw [div_eq_iff hA0]
    push_cast
    ring
  · rw [initParams_eq, li_liang_cai_run, getv_V]
    push_cast
    rw [hexp] at ha30 ⊢
    field_simp
    ring
  · rw [initParams_eq, li_liang_cai_run, getv_Vsi]
    push_cast
    field_simp
    ring
  · intro zt2 hn ps2 hps2
    rw [create_parameters_llc] at hps2
    obtain rfl := Except.ok.inj hps2
    have hn' : (0:ℝ) < (at_ : ℝ) - (zt2 : ℝ) := by exact_mod_cast hn
    simp only [initParams_eq, li_liang_cai_run, getv_V, getv_Vsi]
    constructor
    · intro heq
      push_cast at heq
      field_simp at heq
      have h4 : (8.7502 * ((at_ : ℝ) ^ ((1.0 : ℝ) / 3.0)))
            * ((at_ : ℝ) - (zt2 : ℝ))
          = (1.0474 * (at_ : ℝ)) * ((at_ : ℝ) - (zt2 : ℝ)) := by
        linear_combination heq
      exact llc_no_fixed_ratio at_ hat (mul_right_cancel₀ (ne_of_gt hn') h4)
    · intro heq
      push_cast at heq
      field_simp at heq
      linarith

/-- Witness for C7 at `E = 10`, `at = 40`: the symmetric call `zt = at = 40`
realizes the `-1` asymmetry term and differs in `V` from the call with
`zt = 20`. -/
theorem llc_isospin_asymmetry_witness :
    (((40 - 40 : ℤ) : ℝ) - ((40 : ℤ) : ℝ)) / ((40 : ℤ) : ℝ) = -1
    ∧ getv "V" (li_liang_cai_triton_potential 10 40 40 initParams)
        = 137.6 - 0.1456 * 10 + 0.0436 * 10 ^ 2 + 4.3751 * (-1)
          + 1.0474 * ((40 : ℤ) : ℝ) / ((40 : ℤ) : ℝ) ^ ((1 : ℝ) / 3)
    ∧ getv "Vsi" (li_liang_cai_triton_potential 10 40 40 initParams)
        = 37.06 - 0.6451 * 10 - 47.19 * (-1)
    ∧ getv "V" (li_liang_cai_triton_potential 10 20 40 initParams)
        ≠ getv "V" (li_liang_cai_triton_potential 10 40 40 initParams) := by
  have h := llc_isospin_asymmetry 10 40 (by norm_num) _
    (create_parameters_llc 10 40 40)
  exact ⟨h.1, h.2.1, h.2.2.1,
    (h.2.2.2 20 (by norm_num) _ (create_parameters_llc 10 20 40)).1⟩

/-- The returned parameter set of a successful call (the error branch never
fires on a registered keyword). -/
noncomputable def okOr (dflt : ParameterSet) :
    Except String ParameterSet → ParameterSet
  | Except.ok ps => ps
  | Except.error _ => dflt

/-- Parameter `k` of `create_parameters E zt at_ pot`, as a function of the
inputs. -/
noncomputable def paramAt (pot : String) (E : ℝ) (zt at_ : ℤ) (k : String) :
    ℝ :=
  getv k (okOr initParams (create_parameters E zt at_ pot))

/-- The Koning-Delaroche width `w2` never vanishes at an integer mass number:
`73.55 + 0.0795*at = 0` would need `159*at = -147100`, which has no integer
solution. -/
lemma kdW2_ne_zero (at_ : ℤ) : kdW2 at_ ≠ 0 := by
  unfold kdW2
  intro h
  have h2 : (159 : ℝ) * (at_ : ℝ) = -147100 := by linarith
  have h3 : (159 : ℤ) * at_ = -147100 := by exact_mod_cast h2
  omega

/-- Every An-Cai parameter is continuous in the energy. -/
lemma an_cai_continuous (zt at_ : ℤ) (k : String) (hk : k ∈ paramKeys) :
    Continuous fun E : ℝ => paramAt AN_CAI E zt at_ k := by
  simp only [paramAt, create_parameters_an_cai, okOr, initParams_eq,
    an_cai_run]
  simp only [paramKeys] at hk
  fin_cases hk <;>
    simp only [getv_V, getv_Vi, getv_Vsi, getv_Vso, getv_Vsoi, getv_r0,
      getv_ri0, getv_rsi0, getv_rso0, getv_rsoi0, getv_rc0, getv_a, getv_ai,
      getv_asi, getv_aso, getv_asoi] <;>
    fun_prop

/-- Every Daehnick parameter is continuous in the energy. -/
lemma daehnick_continuous (zt at_ : ℤ) (k : String) (hk : k ∈ paramKeys) :
    Continuous fun E : ℝ => paramAt DAEHNICK E zt at_ k := by
  simp only [paramAt, create_parameters_daehnick, okOr, initParams_eq,
    daehnick_run]
  simp only [paramKeys] at hk
  fin_cases hk <;>
    simp only [getv_V, getv_Vi, getv_Vsi, getv_Vso, getv_Vsoi, getv_r0,
      getv_ri0, getv_rsi0, getv_rso0, getv_rsoi0, getv_rc0, getv_a, getv_ai,
      getv_asi, getv_aso, getv_asoi] <;>
    fun_prop

/-- Every Bojowald parameter is continuous in the energy: the thresholded
imaginary volume depth matches `0` with `0.132*(45-45)` at the kink. -/
lemma bojowald_continuous (zt at_ : ℤ) (k : String) (hk : k ∈ paramKeys) :
    Continuous fun E : ℝ => paramAt BOJOWALD E zt at_ k := by
  have hVi : Continuous fun E : ℝ => if 45 < E then 0.132 * (E - 45) else 0 := by
    have heq : (fun E : ℝ => if 45 < E then 0.132 * (E - 45) else 0)
        = fun E : ℝ => if E ≤ 45 then 0 else 0.132 * (E - 45) := by
      funext E
      rcases le_or_lt E 45 with h | h
      · rw [if_neg (not_lt.mpr h), if_pos h]
      · rw [if_pos h, if_neg (not_le.mpr h)]
    rw [heq]
    refine Continuous.if_le continuous_const (by fun_prop) continuous_id
      continuous_const ?_
    intro x hx
    rw [hx]
    norm_num
  simp only [paramAt, create_parameters_bojowald, okOr, initParams_eq,
    bojowald_run]
  simp only [paramKeys] at hk
  fin_cases hk <;>
    simp only [getv_V, getv_Vi, getv_Vsi, getv_Vso, getv_Vsoi, getv_r0,
      getv_ri0, getv_rsi0, getv_rso0, getv_rsoi0, getv_rc0, getv_a, getv_ai,
      getv_asi, getv_aso, getv_asoi] <;>
    first
      | exact hVi
      | exact continuous_const.sub (continuous_const.mul hVi)
      | fun_prop

/-- Every Koning-Delaroche proton parameter is continuous in the energy; the
Lorentzian denominators never vanish because their widths are nonzero. -/
lemma koning_delaroche_continuous (zt at_ : ℤ) (k : String)
    (hk : k ∈ paramKeys) :
    Continuous fun E : ℝ => paramAt KONING_DELAROCHE_PROTON E zt at_ k := by
  simp only [paramAt, create_parameters_kd, okOr, initParams_eq,
    koning_delaroche_run]
  simp only [paramKeys] at hk
  fin_cases hk <;>
    simp only [getv_V, getv_Vi, getv_Vsi, getv_Vso, getv_Vsoi, getv_r0,
      getv_ri0, getv_rsi0, getv_rso0, getv_rsoi0, getv_rc0, getv_a, getv_ai,
      getv_asi, getv_aso, getv_asoi, kdDe] <;>
    first
      | fun_prop
      | (refine Continuous.div (by fun_prop) (by fun_prop) ?_
         intro x
         first
           | positivity
           | exact ne_of_gt (add_pos_of_nonneg_of_pos (sq_nonneg _)
               (lt_of_le_of_ne (sq_nonneg _)
                 (Ne.symm (pow_ne_zero 2 (kdW2_ne_zero at_))))))
      | (refine (Continuous.div (by fun_prop) (by fun_prop) ?_).mul (by fun_prop)
         intro x
         positivity)

/-- Every Li-Liang-Cai triton parameter is continuous in the energy. -/
lemma li_liang_cai_continuous (zt at_ : ℤ) (k : String) (hk : k ∈ paramKeys) :
    Continuous fun E : ℝ => paramAt LI_LIANG_CAI_TRITON E zt at_ k := by
  simp only [paramAt, create_parameters_llc, okOr, initParams_eq,
    li_liang_cai_run]
  simp only [paramKeys] at hk
  fin_cases hk <;>
    simp only [getv_V, getv_Vi, getv_Vsi, getv_Vso, getv_Vsoi, getv_r0,
      getv_ri0, getv_rsi0, getv_rso0, getv_rsoi0, getv_rc0, getv_a, getv_ai,
      getv_asi, getv_aso, getv_asoi] <;>
    fun_prop

/-- C8: with `zt` and `at` held fixed, every one of the sixteen output
parameters of every registered formula is a continuous function of `E`; in
particular Bojowald's `Vi`, whose kink at `E = 45` joins the value `0` with
`0.132*(E-45)` tending to `0`, is continuous there too. -/
theorem params_continuous_in_energy (pot : String)
    (hpot : pot ∈ POTENTIAL_KEYWORDS) (zt at_ : ℤ) (k : String)
    (hk : k ∈ paramKeys) :
    Continuous fun E : ℝ => paramAt pot E zt at_ k := by
  simp only [POTENTIAL_KEYWORDS, List.mem_cons, List.not_mem_nil,
    or_false] at hpot
  rcases hpot with rfl | rfl | rfl | rfl | rfl
  · exact an_cai_continuous zt at_ k hk
  · exact daehnick_continuous zt at_ k hk
  · exact bojowald_continuous zt at_ k hk
  · exact koning_delaroche_continuous zt at_ k hk
  · exact li_liang_cai_continuous zt at_ k hk

/-- Witness for C8: Bojowald's `Vi` at the kink parameters `zt = 6`,
`at = 12` is continuous in the energy. -/
theorem params_continuous_in_energy_witness :
    Continuous fun E : ℝ => paramAt BOJOWALD E 6 12 "Vi" :=
  params_continuous_in_energy BOJOWALD (by simp [POTENTIAL_KEYWORDS]) 6 12
    "Vi" (by simp [paramKeys])

end Hieroglyph
